import Mathlib

/-!
Verification of the record-reconciliation and persistence layer of the
PMG issue pipeline.  The Python modules under post_processing/merge.py and
database_writer/ are shallowly embedded: JSON objects become association
lists from field names to string values, the per-issue merge and the
batched writer become pure Lean functions, and the database engine is an
explicit parameter returning either an affected-row count or an error.
-/

namespace PMG

/-- A parsed JSON object is modelled as an association list from field
names to string values; lookup takes the first binding, matching Python
dict access on objects that bind each key once. -/
abbrev Dict := List (String × String)

/-- Python d.get(k, dflt) on a modelled JSON object. -/
def dget (d : Dict) (k dflt : String) : String :=
  (d.lookup k).getD dflt

theorem dget_nil (k dflt : String) : dget [] k dflt = dflt := rfl

/-- Truthiness test on the two key fields, mirroring the guard
`if project_id and issue_id` in _create_lookups (merge.py lines 205-246):
both strings must be non-empty. -/
def validEntry (d : Dict) : Bool :=
  (dget d "projectId" "" != "") && (dget d "issueId" "" != "")

/-- Join key built by _create_lookups and _combine_single_issue:
the f-string projectId_issueId. -/
def entryKey (d : Dict) : String :=
  dget d "projectId" "" ++ "_" ++ dget d "issueId" ""

/-- Lookup construction shared by the five loops of _create_lookups
(merge.py lines 191-260): iterate the rows, skip rows with an empty
projectId or issueId, and bind the join key to the row, overwriting any
earlier binding.  Overwriting is modelled by consing the new binding in
front, since List.lookup returns the first match. -/
def buildLookup (rows : List Dict) : List (String × Dict) :=
  rows.foldl (fun acc d => if validEntry d then (entryKey d, d) :: acc else acc) []

/-- The five lookup dictionaries returned by _create_lookups. -/
structure Lookups where
  descriptions : List (String × Dict)
  classifications : List (String × Dict)
  similar_issues : List (String × Dict)
  timeline_predictions : List (String × Dict)
  action_recommendations : List (String × Dict)

/-- Embedding of _create_lookups (merge.py lines 191-260); the five loops
are textually identical up to the dataset, so they share buildLookup. -/
def createLookups (descriptions classifications similar_issues timeline_predictions action_recommendations : List Dict) : Lookups :=
  { descriptions := buildLookup descriptions
    classifications := buildLookup classifications
    similar_issues := buildLookup similar_issues
    timeline_predictions := buildLookup timeline_predictions
    action_recommendations := buildLookup action_recommendations }

/-- The combined output record of _combine_single_issue, with one field
per required output column (merge.py lines 285-326). -/
structure FinalRecord where
  projectId : String
  issueId : String
  shortDescription : String
  longDescription : String
  projectIssueClass : String
  si1ProjectId : String
  si1IssueId : String
  si1Name : String
  si1StartDate : String
  si1ResolutionTime : String
  si2ProjectId : String
  si2IssueId : String
  si2Name : String
  si2StartDate : String
  si2ResolutionTime : String
  si3ProjectId : String
  si3IssueId : String
  si3Name : String
  si3StartDate : String
  si3ResolutionTime : String
  timeAiPredictedTimeline : String
  issueStartDate : String
  predictedEndDate : String
  timelineResolutionRationale : String
  immediateNextSteps : String
  learnFromSimilarIssues : String
  strategicBestPractice : String
deriving DecidableEq

/-- Embedding of PostProcessingPipeline._combine_single_issue
(merge.py lines 262-328). -/
def combineSingleIssue (issue : Dict) (lookups : Lookups) : FinalRecord :=
  let project_id := dget issue "projectId" ""
  let issue_id := dget issue "issueId" ""
  let issue_key := project_id ++ "_" ++ issue_id
  let desc_data := (lookups.descriptions.lookup issue_key).getD []
  let cls_data := (lookups.classifications.lookup issue_key).getD []
  let sim_data := (lookups.similar_issues.lookup issue_key).getD []
  let timeline_data := (lookups.timeline_predictions.lookup issue_key).getD []
  let action_data := (lookups.action_recommendations.lookup issue_key).getD []
  { projectId := project_id
    issueId := issue_id
    shortDescription := dget desc_data "shortDescription" ""
    longDescription := dget desc_data "longDescription" ""
    projectIssueClass := dget cls_data "classification" ""
    si1ProjectId := dget sim_data "similarIssue1ProjectId" ""
    si1IssueId := dget sim_data "similarIssue1IssueId" ""
    si1Name := dget sim_data "similarIssue1Name" ""
    si1StartDate := dget sim_data "similarIssue1StartDate" ""
    si1ResolutionTime := dget sim_data "similarIssue1ResolutionTime" ""
    si2ProjectId := dget sim_data "similarIssue2ProjectId" ""
    si2IssueId := dget sim_data "similarIssue2IssueId" ""
    si2Name := dget sim_data "similarIssue2Name" ""
    si2StartDate := dget sim_data "similarIssue2StartDate" ""
    si2ResolutionTime := dget sim_data "similarIssue2ResolutionTime" ""
    si3ProjectId := dget sim_data "similarIssue3ProjectId" ""
    si3IssueId := dget sim_data "similarIssue3IssueId" ""
    si3Name := dget sim_data "similarIssue3Name" ""
    si3StartDate := dget sim_data "similarIssue3StartDate" ""
    si3ResolutionTime := dget sim_data "similarIssue3ResolutionTime" ""
    timeAiPredictedTimeline := dget timeline_data "timeAiPredictedTimeline" ""
    issueStartDate := dget timeline_data "issueStartDate" (dget issue "issueCreationDate" "")
    predictedEndDate := dget timeline_data "predictedEndDate" ""
    timelineResolutionRationale := dget timeline_data "timelineReasoning" ""
    immediateNextSteps := dget action_data "immediateNextSteps" ""
    learnFromSimilarIssues := dget action_data "learnFromSimilarIssues" ""
    strategicBestPractice := dget action_data "strategicBestPractice" "" }

/-- The sentinel record appended by the except branch of
_process_all_issues (merge.py lines 360-393); i is the 1-based position
of the issue and msg the exception text. -/
def errorRecord (i : Nat) (issue : Dict) (msg : String) : FinalRecord :=
  { projectId := dget issue "projectId" "Unknown"
    issueId := dget issue "issueId" ("Issue_" ++ toString i)
    shortDescription := "Processing error: " ++ msg
    longDescription := "Please contact support for assistance"
    projectIssueClass := "Error"
    si1ProjectId := ""
    si1IssueId := ""
    si1Name := ""
    si1StartDate := ""
    si1ResolutionTime := ""
    si2ProjectId := ""
    si2IssueId := ""
    si2Name := ""
    si2StartDate := ""
    si2ResolutionTime := ""
    si3ProjectId := ""
    si3IssueId := ""
    si3Name := ""
    si3StartDate := ""
    si3ResolutionTime := ""
    timeAiPredictedTimeline := ""
    issueStartDate := dget issue "issueCreationDate" ""
    predictedEndDate := ""
    timelineResolutionRationale := "Processing error occurred"
    immediateNextSteps := "Contact support for assistance"
    learnFromSimilarIssues := "Review issue data and retry"
    strategicBestPractice := "Check system logs and retry processing" }

/-- Loop body of _process_all_issues (merge.py lines 347-393), carrying
the 1-based loop counter.  The possibility that building one record
raises is modelled by letting the builder return Except; the except
branch substitutes the sentinel record. -/
def processAllIssuesGo (build : Dict → Except String FinalRecord) : Nat → List Dict → List FinalRecord
  | _, [] => []
  | i, issue :: rest =>
      (match build issue with
        | Except.ok r => r
        | Except.error e => errorRecord i issue e) :: processAllIssuesGo build (i + 1) rest

/-- Embedding of _process_all_issues (merge.py lines 330-396) over an
arbitrary record builder; enumerate starts the counter at 1. -/
def processAllIssuesWith (build : Dict → Except String FinalRecord) (all_issues : List Dict) : List FinalRecord :=
  processAllIssuesGo build 1 all_issues

/-- The builder the pipeline actually passes: _combine_single_issue over
the lookups.  In the embedding this builder never fails. -/
def processAllIssues (lookups : Lookups) (all_issues : List Dict) : List FinalRecord :=
  processAllIssuesWith (fun issue => Except.ok (combineSingleIssue issue lookups)) all_issues

theorem processAllIssuesGo_length (build : Dict → Except String FinalRecord) :
    ∀ (i : Nat) (l : List Dict), (processAllIssuesGo build i l).length = l.length := by
  intro i l
  induction l generalizing i with
  | nil => rfl
  | cons issue rest ih => simp [processAllIssuesGo, ih]

theorem processAllIssuesGo_getElem (build : Dict → Except String FinalRecord) :
    ∀ (i : Nat) (l : List Dict) (j : Nat),
      (processAllIssuesGo build i l)[j]? =
        (l[j]?).map (fun issue =>
          match build issue with
          | Except.ok r => r
          | Except.error e => errorRecord (i + j) issue e) := by
  intro i l
  induction l generalizing i with
  | nil => intro j; simp [processAllIssuesGo]
  | cons issue rest ih =>
      intro j
      cases j with
      | zero => simp [processAllIssuesGo]
      | succ j =>
          simp only [processAllIssuesGo, List.getElem?_cons_succ]
          rw [ih (i + 1) j]
          have : i + 1 + j = i + (j + 1) := by omega
          rw [this]

/-- C1: for every base-issue list and every record builder (hence any
contents of the five annotation datasets, and any exception behaviour of
the per-issue combination), _process_all_issues returns exactly one output
record per input issue, in input order; position j holds the built record
for issue j, or, when building it failed, the sentinel error record
carrying the 1-based position j + 1. -/
theorem claim1_cardinality_invariance :
    ∀ (build : Dict → Except String FinalRecord) (all_issues : List Dict),
      (processAllIssuesWith build all_issues).length = all_issues.length ∧
      ∀ (j : Nat),
        (processAllIssuesWith build all_issues)[j]? =
          (all_issues[j]?).map (fun issue =>
            match build issue with
            | Except.ok r => r
            | Except.error e => errorRecord (1 + j) issue e) := by
  intro build all_issues
  exact ⟨processAllIssuesGo_length build 1 all_issues,
    fun j => processAllIssuesGo_getElem build 1 all_issues j⟩

/-- C6: fallback record produced when the base issue matches none of the
five lookups. -/
theorem claim6_fallback (issue : Dict) (lookups : Lookups)
    (hd : lookups.descriptions.lookup (entryKey issue) = none)
    (hc : lookups.classifications.lookup (entryKey issue) = none)
    (hs : lookups.similar_issues.lookup (entryKey issue) = none)
    (ht : lookups.timeline_predictions.lookup (entryKey issue) = none)
    (ha : lookups.action_recommendations.lookup (entryKey issue) = none) :
    combineSingleIssue issue lookups =
      { projectId := dget issue "projectId" ""
        issueId := dget issue "issueId" ""
        shortDescription := ""
        longDescription := ""
        projectIssueClass := ""
        si1ProjectId := ""
        si1IssueId := ""
        si1Name := ""
        si1StartDate := ""
        si1ResolutionTime := ""
        si2ProjectId := ""
        si2IssueId := ""
        si2Name := ""
        si2StartDate := ""
        si2ResolutionTime := ""
        si3ProjectId := ""
        si3IssueId := ""
        si3Name := ""
        si3StartDate := ""
        si3ResolutionTime := ""
        timeAiPredictedTimeline := ""
        issueStartDate := dget issue "issueCreationDate" ""
        predictedEndDate := ""
        timelineResolutionRationale := ""
        immediateNextSteps := ""
        learnFromSimilarIssues := ""
        strategicBestPractice := "" } := by
  have hk : entryKey issue = dget issue "projectId" "" ++ "_" ++ dget issue "issueId" "" := rfl
  rw [hk] at hd hc hs ht ha
  simp [combineSingleIssue, hd, hc, hs, ht, ha, dget_nil]

/-- Witness for C6 at a concrete issue with empty lookups. -/
theorem claim6_fallback_witness :
    combineSingleIssue [("projectId", "p1"), ("issueId", "i1"), ("issueCreationDate", "2024-05-01")]
        ⟨[], [], [], [], []⟩ =
      { projectId := "p1"
        issueId := "i1"
        shortDescription := ""
        longDescription := ""
        projectIssueClass := ""
        si1ProjectId := ""
        si1IssueId := ""
        si1Name := ""
        si1StartDate := ""
        si1ResolutionTime := ""
        si2ProjectId := ""
        si2IssueId := ""
        si2Name := ""
        si2StartDate := ""
        si2ResolutionTime := ""
        si3ProjectId := ""
        si3IssueId := ""
        si3Name := ""
        si3StartDate := ""
        si3ResolutionTime := ""
        timeAiPredictedTimeline := ""
        issueStartDate := "2024-05-01"
        predictedEndDate := ""
        timelineResolutionRationale := ""
        immediateNextSteps := ""
        learnFromSimilarIssues := ""
        strategicBestPractice := "" } :=
  claim6_fallback _ _ rfl rfl rfl rfl rfl

theorem buildLookup_foldl (rows : List Dict) :
    ∀ (acc : List (String × Dict)) (k : String),
      (rows.foldl (fun acc d => if validEntry d then (entryKey d, d) :: acc else acc) acc).lookup k =
        ((rows.reverse.find? (fun d => validEntry d && (entryKey d == k))).orElse
          (fun _ => acc.lookup k)) := by
  induction rows with
  | nil => intro acc k; simp [Option.orElse]
  | cons d rest ih =>
      intro acc k
      simp only [List.foldl_cons, List.reverse_cons, List.find?_append, ih]
      cases hf : List.find? (fun x => validEntry x && (entryKey x == k)) rest.reverse with
      | some v => simp [Option.orElse]
      | none =>
          simp only [Option.orElse]
          by_cases hv : validEntry d
          · by_cases hk : entryKey d = k
            · subst hk
              simp [hv, List.find?, List.lookup]
            · have hk2 : (entryKey d == k) = false := by simp [hk]
              have hk3 : (k == entryKey d) = false := by simp [Ne.symm hk]
              simp [hv, hk2, hk3, List.find?, List.lookup]
          · have hv2 : validEntry d = false := by simpa using hv
            simp [hv2, List.find?]

/-- C7 counterexample: the lookup is keyed by the joined string
projectId_issueId, not by the pair, so a later entry with a different pair
but the same joined string can steal the slot; here the first two rows
share the pair (a, b_c), yet the lookup does not map their key to the
second row. -/
theorem claim7_counterexample :
    (buildLookup
        [[("projectId", "a"), ("issueId", "b_c"), ("shortDescription", "v1")],
         [("projectId", "a"), ("issueId", "b_c"), ("shortDescription", "v2")],
         [("projectId", "a_b"), ("issueId", "c"), ("shortDescription", "v3")]]).lookup "a_b_c" ≠
      some [("projectId", "a"), ("issueId", "b_c"), ("shortDescription", "v2")] := by
  decide

/-- C7 (amended): for each of the five datasets, _create_lookups skips
entries with an empty projectId or issueId; among the rest it is keyed by
the joined string projectId_issueId and maps each key string to the last
entry of the sequence whose joined string equals it (last write wins on
the joined string, which can identify distinct id pairs). -/
theorem claim7_last_write_wins :
    ∀ (d c s t a : List Dict) (k : String),
      ((createLookups d c s t a).descriptions.lookup k =
        d.reverse.find? (fun x => validEntry x && (entryKey x == k))) ∧
      ((createLookups d c s t a).classifications.lookup k =
        c.reverse.find? (fun x => validEntry x && (entryKey x == k))) ∧
      ((createLookups d c s t a).similar_issues.lookup k =
        s.reverse.find? (fun x => validEntry x && (entryKey x == k))) ∧
      ((createLookups d c s t a).timeline_predictions.lookup k =
        t.reverse.find? (fun x => validEntry x && (entryKey x == k))) ∧
      ((createLookups d c s t a).action_recommendations.lookup k =
        a.reverse.find? (fun x => validEntry x && (entryKey x == k))) := by
  intro d c s t a k
  have h : ∀ rows : List Dict,
      (buildLookup rows).lookup k =
        rows.reverse.find? (fun x => validEntry x && (entryKey x == k)) := by
    intro rows
    have h2 := buildLookup_foldl rows [] k
    cases hf : rows.reverse.find? (fun x => validEntry x && (entryKey x == k)) with
    | some v => rw [hf] at h2; simpa [buildLookup, Option.orElse] using h2
    | none => rw [hf] at h2; simpa [buildLookup, Option.orElse] using h2
  exact ⟨h d, h c, h s, h t, h a⟩

/-- Python str.strip(): drop whitespace from both ends, modelled on the
character list underlying the string. -/
def pyStrip (s : String) : String :=
  String.mk (((s.data.dropWhile Char.isWhitespace).reverse.dropWhile Char.isWhitespace).reverse)

/-- Python character slicing value[:n], modelled on the character list. -/
def strTrunc (s : String) (n : Nat) : String :=
  String.mk (s.data.take n)

/-- Field mapping from the JSON column names to the database column names
(database_writer.py lines 320-348). -/
def fieldMapping : List (String × String) :=
  [("Project ID", "project_id"),
   ("Issue ID", "issue_id"),
   ("Short Description", "short_description"),
   ("Long Description", "long_description"),
   ("Project Issue class", "project_issue_class"),
   ("Similar Issue 1 Project ID", "similar_issue_1_project_id"),
   ("Similar Issue 1 Issue ID", "similar_issue_1_issue_id"),
   ("Similar Issue 1 Name", "similar_issue_1_name"),
   ("Similar Issue 1 Start Date", "similar_issue_1_start_date"),
   ("Similar Issue 1 Resolution Time", "similar_issue_1_resolution_time"),
   ("Similar Issue 2 Project ID", "similar_issue_2_project_id"),
   ("Similar Issue 2 Issue ID", "similar_issue_2_issue_id"),
   ("Similar Issue 2 Name", "similar_issue_2_name"),
   ("Similar Issue 2 Start Date", "similar_issue_2_start_date"),
   ("Similar Issue 2 Resolution Time", "similar_issue_2_resolution_time"),
   ("Similar Issue 3 Project ID", "similar_issue_3_project_id"),
   ("Similar Issue 3 Issue ID", "similar_issue_3_issue_id"),
   ("Similar Issue 3 Name", "similar_issue_3_name"),
   ("Similar Issue 3 Start Date", "similar_issue_3_start_date"),
   ("Similar Issue 3 Resolution Time", "similar_issue_3_resolution_time"),
   ("Time AI Predicted Timeline", "time_ai_predicted_timeline"),
   ("Issue Start Date", "issue_start_date"),
   ("Predicted End Date", "predicted_end_date"),
   ("Timeline Resolution Rationale", "timeline_resolution_rationale"),
   ("Immediate next steps", "immediate_next_steps"),
   ("Learn from similar Issues", "learn_from_similar_issues"),
   ("Strategic Best practice", "strategic_best_practice")]

/-- Database columns limited to VARCHAR(100) for similar-issue ids
(database_writer.py lines 373-374). -/
def similarIdFields : List String :=
  ["similar_issue_1_project_id", "similar_issue_2_project_id", "similar_issue_3_project_id",
   "similar_issue_1_issue_id", "similar_issue_2_issue_id", "similar_issue_3_issue_id"]

/-- Database columns limited to VARCHAR(50) for dates and durations
(database_writer.py lines 376-378). -/
def dateLimitedFields : List String :=
  ["similar_issue_1_start_date", "similar_issue_2_start_date", "similar_issue_3_start_date",
   "similar_issue_1_resolution_time", "similar_issue_2_resolution_time", "similar_issue_3_resolution_time",
   "time_ai_predicted_timeline", "issue_start_date", "predicted_end_date"]

/-- Per-field cleaning of _prepare_record_for_db (database_writer.py
lines 362-383): strip, then either reject an empty required key field,
or truncate to the column width, mapping an empty value to none
(SQL NULL). -/
def prepareValue (db_field raw : String) : Except String (Option String) :=
  let value := pyStrip raw
  if db_field = "project_id" ∨ db_field = "issue_id" then
    if value = "" then Except.error ("Required field " ++ db_field ++ " is empty")
    else Except.ok (some (strTrunc value 100))
  else if db_field = "project_issue_class" then
    Except.ok (if value = "" then none else some (strTrunc value 300))
  else if db_field ∈ similarIdFields then
    Except.ok (if value = "" then none else some (strTrunc value 100))
  else if db_field ∈ dateLimitedFields then
    Except.ok (if value = "" then none else some (strTrunc value 50))
  else
    Except.ok (if value = "" then none else some value)

/-- One iteration of the conversion loop of _prepare_record_for_db:
read the original field (missing and null values read as the empty
string) and clean it. -/
def mapStep (record : Dict) (pr : String × String) : Except String (String × Option String) :=
  match prepareValue pr.2 (dget record pr.1 "") with
  | Except.error e => Except.error e
  | Except.ok v => Except.ok (pr.2, v)

/-- Monadic map over Except, raising at the first failing element, as the
Python for-loop does. -/
def mapExcept (f : α → Except String β) : List α → Except String (List β)
  | [] => Except.ok []
  | x :: xs =>
      match f x with
      | Except.error e => Except.error e
      | Except.ok y =>
          match mapExcept f xs with
          | Except.error e => Except.error e
          | Except.ok ys => Except.ok (y :: ys)

/-- Metadata fields appended by _prepare_record_for_db
(database_writer.py lines 386-388). -/
def metaFields : List (String × Option String) :=
  [("ml_pipeline_version", some "1.0.0"), ("processing_status", some "completed")]

/-- Embedding of DatabaseWriter._prepare_record_for_db
(database_writer.py lines 309-390). -/
def prepareRecordForDb (record : Dict) : Except String (List (String × Option String)) :=
  match mapExcept (mapStep record) fieldMapping with
  | Except.error e => Except.error e
  | Except.ok base => Except.ok (base ++ metaFields)

/-- Boolean success test on Except, modelling whether a call raised. -/
def exOk : Except String α → Bool
  | Except.ok _ => true
  | Except.error _ => false

theorem mapExcept_ok (f : α → Except String β) :
    ∀ (l : List α) (out : List β), mapExcept f l = Except.ok out →
      List.Forall₂ (fun a b => f a = Except.ok b) l out := by
  intro l
  induction l with
  | nil =>
      intro out h
      simp only [mapExcept] at h
      cases h
      exact List.Forall₂.nil
  | cons x xs ih =>
      intro out h
      simp only [mapExcept] at h
      cases hx : f x with
      | error e => rw [hx] at h; cases h
      | ok y =>
          rw [hx] at h
          cases hxs : mapExcept f xs with
          | error e => rw [hxs] at h; cases h
          | ok ys =>
              rw [hxs] at h
              cases h
              exact List.Forall₂.cons hx (ih ys hxs)

theorem lookup_append_keys {γ : Type} (l₁ l₂ : List (String × γ)) (k : String)
    (h : ∀ p ∈ l₁, p.1 ≠ k) : (l₁ ++ l₂).lookup k = l₂.lookup k := by
  induction l₁ with
  | nil => simp
  | cons a t ih =>
      have ha : a.1 ≠ k := h a (by simp)
      have hb : (k == a.1) = false := by simp [Ne.symm ha]
      simpa [List.lookup, hb] using ih (fun p hp => h p (by simp [hp]))

theorem mapExcept_keys (record : Dict) :
    ∀ (fm : List (String × String)) (out : List (String × Option String)),
      List.Forall₂ (fun a b => mapStep record a = Except.ok b) fm out →
      ∀ q ∈ out, q.1 ∈ fm.map Prod.snd := by
  intro fm out h
  induction h with
  | nil => intro q hq; cases hq
  | @cons a b fm2 out2 hab h2 ih =>
      intro q hq
      cases hq with
      | head =>
          cases hpv : prepareValue a.2 (dget record a.1 "") with
          | error e => simp [mapStep, hpv] at hab
          | ok v =>
              simp [mapStep, hpv] at hab
              simp [← hab]
      | tail _ hm => simp [ih q hm]

theorem mapExcept_lookup (record : Dict) :
    ∀ (fm : List (String × String)) (out : List (String × Option String)),
      List.Forall₂ (fun a b => mapStep record a = Except.ok b) fm out →
      (fm.map Prod.snd).Nodup →
      ∀ pr ∈ fm, ∀ v, prepareValue pr.2 (dget record pr.1 "") = Except.ok v →
        ∀ tl : List (String × Option String), (out ++ tl).lookup pr.2 = some v := by
  intro fm out h
  induction h with
  | nil => intro _ pr hpr; cases hpr
  | @cons a b fm2 out2 hab h2 ih =>
      intro hnd pr hpr v hv tl
      rw [List.map_cons] at hnd
      have hnd2 := List.nodup_cons.mp hnd
      cases hpv : prepareValue a.2 (dget record a.1 "") with
      | error e => simp [mapStep, hpv] at hab
      | ok w =>
          simp [mapStep, hpv] at hab
          cases hpr with
          | head =>
              rw [hpv] at hv
              cases hv
              simp [← hab, List.lookup]
          | tail _ hm =>
              have hne : a.2 ≠ pr.2 := by
                intro he
                exact hnd2.1 (he ▸ (List.mem_map.mpr ⟨pr, hm, rfl⟩))
              have hb : (pr.2 == a.2) = false := by simp [Ne.symm hne]
              rw [← hab]
              simpa [List.lookup, hb] using ih hnd2.2 pr hm v hv tl

theorem strTrunc_ne_empty (s : String) (n : Nat) (hs : s ≠ "") (hn : 0 < n) :
    strTrunc s n ≠ "" := by
  intro he
  have hd := congrArg String.data he
  cases s with
  | mk l =>
      cases l with
      | nil => exact hs rfl
      | cons c cs =>
          cases n with
          | zero => omega
          | succ m => simp [strTrunc] at hd

theorem prepareValue_ok_ne_empty (f raw : String) (v : Option String)
    (h : prepareValue f raw = Except.ok v) : v ≠ some "" := by
  unfold prepareValue at h
  by_cases h1 : f = "project_id" ∨ f = "issue_id"
  · simp only [h1, if_true] at h
    by_cases h2 : pyStrip raw = ""
    · simp [h2] at h
    · simp [h2] at h
      intro hc
      rw [← h] at hc
      exact strTrunc_ne_empty (pyStrip raw) 100 h2 (by omega) (by simpa using hc)
  · simp only [h1, if_false] at h
    by_cases h2 : pyStrip raw = ""
    · split_ifs at h <;>
        · simp [h2] at h
          simp [← h]
    · have hne : ∀ (m : Nat), 0 < m → some (strTrunc (pyStrip raw) m) ≠ some "" := by
        intro m hm hc
        exact strTrunc_ne_empty (pyStrip raw) m h2 hm (by simpa using hc)
      split_ifs at h <;> simp [h2] at h <;> rw [← h]
      · exact hne 300 (by omega)
      · exact hne 100 (by omega)
      · exact hne 50 (by omega)
      · intro hc
        exact h2 (by simpa using hc)

theorem prepareValue_empty_nonkey (f raw : String)
    (hf1 : f ≠ "project_id") (hf2 : f ≠ "issue_id") (h : pyStrip raw = "") :
    prepareValue f raw = Except.ok none := by
  have h1 : ¬(f = "project_id" ∨ f = "issue_id") := by tauto
  unfold prepareValue
  simp only [h, h1, if_false]
  split_ifs <;> rfl

theorem mapExcept_vals (record : Dict) :
    ∀ (fm : List (String × String)) (out : List (String × Option String)),
      List.Forall₂ (fun a b => mapStep record a = Except.ok b) fm out →
      ∀ q ∈ out, q.2 ≠ some "" := by
  intro fm out h
  induction h with
  | nil => intro q hq; cases hq
  | @cons a b fm2 out2 hab h2 ih =>
      intro q hq
      cases hq with
      | head =>
          cases hpv : prepareValue a.2 (dget record a.1 "") with
          | error e => simp [mapStep, hpv] at hab
          | ok v =>
              simp [mapStep, hpv] at hab
              rw [← hab]
              exact prepareValue_ok_ne_empty a.2 (dget record a.1 "") v hpv
      | tail _ hm => exact ih q hm

/-- C10: every record accepted by _prepare_record_for_db maps each
non-key field whose value strips to the empty string to none (SQL NULL),
including the width-limited VARCHAR columns; no stored value is the empty
string; and the metadata constants ml_pipeline_version 1.0.0 and
processing_status completed are attached. -/
theorem claim10_null_coercion_and_metadata (record : Dict)
    (db : List (String × Option String)) (h : prepareRecordForDb record = Except.ok db) :
    (db.lookup "ml_pipeline_version" = some (some "1.0.0")) ∧
    (db.lookup "processing_status" = some (some "completed")) ∧
    (∀ pr ∈ fieldMapping, pr.2 ≠ "project_id" → pr.2 ≠ "issue_id" →
        pyStrip (dget record pr.1 "") = "" → db.lookup pr.2 = some none) ∧
    (∀ q ∈ db, q.2 ≠ some "") := by
  unfold prepareRecordForDb at h
  cases hm : mapExcept (mapStep record) fieldMapping with
  | error e => rw [hm] at h; cases h
  | ok base =>
      rw [hm] at h
      cases h
      have hf2 := mapExcept_ok (mapStep record) fieldMapping base hm
      have hkeys := mapExcept_keys record fieldMapping base hf2
      have hnd : (fieldMapping.map Prod.snd).Nodup := by decide
      refine ⟨?_, ?_, ?_, ?_⟩
      · rw [lookup_append_keys base metaFields "ml_pipeline_version"
          (fun p hp => by
            intro hk
            have := hkeys p hp
            rw [hk] at this
            revert this
            decide)]
        rfl
      · rw [lookup_append_keys base metaFields "processing_status"
          (fun p hp => by
            intro hk
            have := hkeys p hp
            rw [hk] at this
            revert this
            decide)]
        rfl
      · intro pr hpr hp1 hp2 hstrip
        exact mapExcept_lookup record fieldMapping base hf2 hnd pr hpr none
          (prepareValue_empty_nonkey pr.2 (dget record pr.1 "") hp1 hp2 hstrip) metaFields
      · intro q hq
        rcases List.mem_append.mp hq with hq1 | hq2
        · exact mapExcept_vals record fieldMapping base hf2 q hq1
        · simp only [metaFields, List.mem_cons, List.not_mem_nil, or_false] at hq2
          rcases hq2 with h1 | h1 <;> rw [h1] <;> decide

/-- Witness for C10: a record whose Project Issue class strips to empty
is stored with a null classification and the metadata constants. -/
theorem claim10_witness :
    (((prepareRecordForDb
        [("Project ID", "p"), ("Issue ID", "i"), ("Project Issue class", "   ")]).toOption.getD
          []).lookup "project_issue_class" = some none) ∧
    (((prepareRecordForDb
        [("Project ID", "p"), ("Issue ID", "i"), ("Project Issue class", "   ")]).toOption.getD
          []).lookup "ml_pipeline_version" = some (some "1.0.0")) := by
  have h : prepareRecordForDb
      [("Project ID", "p"), ("Issue ID", "i"), ("Project Issue class", "   ")] =
      Except.ok ((prepareRecordForDb
        [("Project ID", "p"), ("Issue ID", "i"), ("Project Issue class", "   ")]).toOption.getD
          []) := rfl
  have hc := claim10_null_coercion_and_metadata _ _ h
  exact ⟨hc.2.2.1 ("Project Issue class", "project_issue_class") (by decide) (by decide)
    (by decide) (by decide), hc.1⟩

/-- Connection parameter values: the defaults mix strings, integers and
booleans (database_writer.py lines 53-59). -/
inductive PVal where
  | s : String → PVal
  | n : Nat → PVal
  | b : Bool → PVal
deriving DecidableEq

/-- The fixed production defaults of MySQLConnectionManager
(database_writer.py lines 53-59). -/
def defaultParams : List (String × PVal) :=
  [("charset", PVal.s "utf8mb4"),
   ("connect_timeout", PVal.n 30),
   ("autocommit", PVal.b true),
   ("use_unicode", PVal.b true),
   ("sql_mode", PVal.s "STRICT_TRANS_TABLES,NO_ZERO_DATE,NO_ZERO_IN_DATE,ERROR_FOR_DIVISION_BY_ZERO")]

/-- Python double-splat dict merge on association lists: keys of base in
order with values overridden by the overrides, then override keys absent
from base, in order. -/
def dictMerge (base overrides : List (String × PVal)) : List (String × PVal) :=
  base.map (fun kv => (kv.1, (overrides.lookup kv.1).getD kv.2)) ++
    overrides.filter (fun kv => (base.lookup kv.1).isNone)

/-- Embedding of the parameter set-up in MySQLConnectionManager.__init__
(database_writer.py lines 62-64): drop a caller-supplied sslmode, then
merge the remainder over the defaults. -/
def effectiveConnectionParams (connection_params : List (String × PVal)) : List (String × PVal) :=
  let filtered_params := connection_params.filter (fun kv => kv.1 != "sslmode")
  dictMerge defaultParams filtered_params

theorem lookup_append_or {γ : Type} (l₁ l₂ : List (String × γ)) (k : String) :
    (l₁ ++ l₂).lookup k = ((l₁.lookup k).orElse (fun _ => l₂.lookup k)) := by
  induction l₁ with
  | nil => simp [Option.orElse]
  | cons a t ih =>
      by_cases hk : k = a.1
      · subst hk
        simp [List.lookup, Option.orElse]
      · have hb : (k == a.1) = false := by simp [hk]
        simpa [List.lookup, hb] using ih

theorem lookup_map_override (base ov : List (String × PVal)) (k : String) :
    ((base.map (fun kv => (kv.1, (ov.lookup kv.1).getD kv.2))).lookup k) =
      (base.lookup k).map (fun v => (ov.lookup k).getD v) := by
  induction base with
  | nil => simp
  | cons a t ih =>
      by_cases hk : k = a.1
      · subst hk
        simp [List.lookup]
      · have hb : (k == a.1) = false := by simp [hk]
        simpa [List.lookup, hb] using ih

theorem lookup_filter_keep (l : List (String × PVal)) (p : String × PVal → Bool) (k : String)
    (h : ∀ kv ∈ l, kv.1 = k → p kv = true) : (l.filter p).lookup k = l.lookup k := by
  induction l with
  | nil => simp
  | cons a t ih =>
      by_cases hp : p a
      · by_cases hk : k = a.1
        · subst hk
          simp [List.filter, hp, List.lookup]
        · have hb : (k == a.1) = false := by simp [hk]
          simpa [List.filter, hp, List.lookup, hb] using
            ih (fun kv hkv he => h kv (by simp [hkv]) he)
      · have hk : a.1 ≠ k := by
          intro he
          exact hp (h a (by simp) he)
        have hb : (k == a.1) = false := by simp [Ne.symm hk]
        have hp2 : p a = false := by simpa using hp
        simpa [List.filter, hp2, List.lookup, hb] using
          ih (fun kv hkv he => h kv (by simp [hkv]) he)

theorem lookup_filter_drop (l : List (String × PVal)) (s : String) :
    (l.filter (fun kv => kv.1 != s)).lookup s = none := by
  induction l with
  | nil => simp
  | cons a t ih =>
      by_cases hk : a.1 = s
      · simp [List.filter, hk, ih]
      · have hp : (a.1 != s) = true := by simp [hk]
        have hb : (s == a.1) = false := by simp [Ne.symm hk]
        simpa [List.filter, hp, List.lookup, hb] using ih

theorem dictMerge_lookup (base ov : List (String × PVal)) (k : String) :
    (dictMerge base ov).lookup k = ((ov.lookup k).orElse (fun _ => base.lookup k)) := by
  unfold dictMerge
  rw [lookup_append_or, lookup_map_override]
  cases hb : base.lookup k with
  | some w =>
      cases ho : ov.lookup k with
      | some v => simp [Option.orElse]
      | none => simp [Option.orElse]
  | none =>
      have hfil : (ov.filter (fun kv => (base.lookup kv.1).isNone)).lookup k = ov.lookup k := by
        apply lookup_filter_keep
        intro kv _ he
        rw [he, hb]
        rfl
      cases ho : ov.lookup k with
      | some v => simp [Option.orElse, hfil, ho]
      | none => simp [Option.orElse, hfil, ho]

/-- C8: the effective connection parameters are the fixed defaults
(charset utf8mb4, connect_timeout 30, autocommit true, use_unicode true,
strict sql_mode) overridden by the caller-supplied parameters on shared
keys, except that a caller-supplied sslmode is stripped before the merge
and never appears. -/
theorem claim8_connection_params :
    ∀ (connection_params : List (String × PVal)),
      ((effectiveConnectionParams connection_params).lookup "sslmode" = none) ∧
      (∀ k, k ≠ "sslmode" →
        (effectiveConnectionParams connection_params).lookup k =
          ((connection_params.lookup k).orElse (fun _ => defaultParams.lookup k))) ∧
      defaultParams.lookup "charset" = some (PVal.s "utf8mb4") ∧
      defaultParams.lookup "connect_timeout" = some (PVal.n 30) ∧
      defaultParams.lookup "autocommit" = some (PVal.b true) ∧
      defaultParams.lookup "use_unicode" = some (PVal.b true) ∧
      defaultParams.lookup "sql_mode" =
        some (PVal.s "STRICT_TRANS_TABLES,NO_ZERO_DATE,NO_ZERO_IN_DATE,ERROR_FOR_DIVISION_BY_ZERO") := by
  intro cp
  refine ⟨?_, ?_, rfl, rfl, rfl, rfl, rfl⟩
  · unfold effectiveConnectionParams
    rw [dictMerge_lookup, lookup_filter_drop]
    rfl
  · intro k hk
    unfold effectiveConnectionParams
    rw [dictMerge_lookup]
    have hfil : (cp.filter (fun kv => kv.1 != "sslmode")).lookup k = cp.lookup k := by
      apply lookup_filter_keep
      intro kv _ he
      rw [he]
      simp [hk]
    rw [hfil]

/-- Witness for C8: a caller supplying sslmode and a timeout override
gets the override, keeps the default charset, and loses sslmode. -/
theorem claim8_witness :
    ((effectiveConnectionParams
        [("sslmode", PVal.s "require"), ("connect_timeout", PVal.n 5)]).lookup "sslmode" = none) ∧
    ((effectiveConnectionParams
        [("sslmode", PVal.s "require"), ("connect_timeout", PVal.n 5)]).lookup "connect_timeout" =
      some (PVal.n 5)) ∧
    ((effectiveConnectionParams
        [("sslmode", PVal.s "require"), ("connect_timeout", PVal.n 5)]).lookup "charset" =
      some (PVal.s "utf8mb4")) :=
  ⟨(claim8_connection_params _).1,
   ((claim8_connection_params _).2.1 "connect_timeout" (by decide)).trans rfl,
   ((claim8_connection_params _).2.1 "charset" (by decide)).trans rfl⟩

/-- A database-ready record: column name to nullable value. -/
abbrev DbRecord := List (String × Option String)

/-- A parameter tuple handed to the engine for one row. -/
abbrev DbTuple := List (Option String)

/-- Static field order of the multi-row INSERT (database_writer.py
lines 460-471). -/
def fieldOrder : List String :=
  ["project_id", "issue_id", "short_description", "long_description", "project_issue_class",
   "similar_issue_1_project_id", "similar_issue_1_issue_id", "similar_issue_1_name",
   "similar_issue_1_start_date", "similar_issue_1_resolution_time",
   "similar_issue_2_project_id", "similar_issue_2_issue_id", "similar_issue_2_name",
   "similar_issue_2_start_date", "similar_issue_2_resolution_time",
   "similar_issue_3_project_id", "similar_issue_3_issue_id", "similar_issue_3_name",
   "similar_issue_3_start_date", "similar_issue_3_resolution_time",
   "time_ai_predicted_timeline", "issue_start_date", "predicted_end_date",
   "timeline_resolution_rationale", "immediate_next_steps", "learn_from_similar_issues",
   "strategic_best_practice", "ml_pipeline_version", "processing_status"]

/-- Conversion of a prepared record to the parameter tuple, as in
record.get(field) over the field order (database_writer.py lines 473-476);
a missing binding reads as null. -/
def dataTuple (record : DbRecord) : DbTuple :=
  fieldOrder.map (fun f => (record.lookup f).getD none)

/-- Embedding of DatabaseWriter._insert_batch (database_writer.py lines
439-493).  The engine is the explicit parameter dbExec, returning the
affected-row count (cursor.rowcount) or raising.  Note the source reads
cursor.rowcount but returns len(data_tuples). -/
def insertBatch (dbExec : List DbTuple → Except String Nat) (records : List DbRecord) :
    Except String Nat :=
  if records.isEmpty then Except.ok 0
  else
    match dbExec (records.map dataTuple) with
    | Except.ok _affected_rows => Except.ok (records.map dataTuple).length
    | Except.error e => Except.error ("Failed to insert batch: " ++ e)

/-- Chunking of the record list as range(0, len(records), batch_size)
slices (database_writer.py lines 512-513).  A zero step would raise in
the source; it is modelled as producing no chunks. -/
def chunksOf : Nat → List α → List (List α)
  | _, [] => []
  | 0, _ :: _ => []
  | b + 1, x :: xs => ((x :: xs).take (b + 1)) :: chunksOf (b + 1) ((x :: xs).drop (b + 1))
termination_by _ l => l.length
decreasing_by simp [List.length_drop]; omega

/-- The statistics dictionary returned by _write_data_to_db
(database_writer.py lines 539-544). -/
structure WriteStats where
  total_records : Nat
  total_processed : Nat
  total_errors : Nat
  batch_count : Nat
deriving DecidableEq

/-- Loop state of _write_data_to_db, extended with the trace of prepared
batches passed to _insert_batch so that attempted persistence calls are
observable. -/
structure WriteAcc where
  total_processed : Nat
  total_errors : Nat
  calls : List (List DbRecord)
deriving DecidableEq

/-- The preparation outcome of one record, none when preparation raised. -/
def prepOpt (r : Dict) : Option DbRecord :=
  (prepareRecordForDb r).toOption

/-- The db_batch built from one chunk: prepared records in order, with
records whose preparation raised dropped (database_writer.py lines
520-527). -/
def prepBatch (batch : List Dict) : List DbRecord :=
  batch.filterMap prepOpt

/-- One iteration of the batch loop of _write_data_to_db (database_writer.py
lines 512-537): prepare the chunk, count per-record preparation errors,
call _insert_batch when the prepared batch is non-empty, and on a database
error log it, add the whole chunk size to the error count and continue. -/
def writeStep (dbExec : List DbTuple → Except String Nat) (acc : WriteAcc) (batch : List Dict) :
    WriteAcc :=
  let db_batch := prepBatch batch
  let prep_errors := (batch.filter (fun r => !(exOk (prepareRecordForDb r)))).length
  if db_batch.isEmpty then
    { acc with total_errors := acc.total_errors + prep_errors }
  else
    match insertBatch dbExec db_batch with
    | Except.ok processed =>
        { total_processed := acc.total_processed + processed
          total_errors := acc.total_errors + prep_errors
          calls := acc.calls ++ [db_batch] }
    | Except.error _ =>
        { total_processed := acc.total_processed
          total_errors := acc.total_errors + prep_errors + batch.length
          calls := acc.calls ++ [db_batch] }

/-- Embedding of DatabaseWriter._write_data_to_db (database_writer.py
lines 495-544), returning the statistics dictionary together with the
trace of prepared batches passed to _insert_batch. -/
def writeDataToDb (batch_size : Nat) (dbExec : List DbTuple → Except String Nat)
    (records : List Dict) : WriteStats × List (List DbRecord) :=
  let acc := (chunksOf batch_size records).foldl (writeStep dbExec) ⟨0, 0, []⟩
  ({ total_records := records.length
     total_processed := acc.total_processed
     total_errors := acc.total_errors
     batch_count := (chunksOf batch_size records).length }, acc.calls)

/-- Contribution of one chunk to total_processed. -/
def chunkProcessed (dbExec : List DbTuple → Except String Nat) (batch : List Dict) : Nat :=
  if (prepBatch batch).isEmpty then 0
  else
    match insertBatch dbExec (prepBatch batch) with
    | Except.ok n => n
    | Except.error _ => 0

/-- Contribution of one chunk to total_errors: the per-record preparation
failures, plus the whole chunk size when the database call raised. -/
def chunkErrors (dbExec : List DbTuple → Except String Nat) (batch : List Dict) : Nat :=
  (batch.filter (fun r => !(exOk (prepareRecordForDb r)))).length +
    (if (prepBatch batch).isEmpty then 0
     else
       match insertBatch dbExec (prepBatch batch) with
       | Except.ok _ => 0
       | Except.error _ => batch.length)

/-- Contribution of one chunk to the trace of persistence calls. -/
def chunkCalls (batch : List Dict) : List (List DbRecord) :=
  if (prepBatch batch).isEmpty then [] else [prepBatch batch]

theorem writeStep_spec (dbExec : List DbTuple → Except String Nat) (acc : WriteAcc)
    (batch : List Dict) :
    writeStep dbExec acc batch =
      { total_processed := acc.total_processed + chunkProcessed dbExec batch
        total_errors := acc.total_errors + chunkErrors dbExec batch
        calls := acc.calls ++ chunkCalls batch } := by
  cases acc with
  | mk p e c =>
      unfold writeStep chunkProcessed chunkErrors chunkCalls
      by_cases he : (prepBatch batch).isEmpty
      · simp [he]
      · cases hi : insertBatch dbExec (prepBatch batch) with
        | ok n => simp [he, hi]
        | error msg => simp [he, hi, Nat.add_assoc]

theorem writeFold_spec (dbExec : List DbTuple → Except String Nat) :
    ∀ (chs : List (List Dict)) (acc : WriteAcc),
      chs.foldl (writeStep dbExec) acc =
        { total_processed := acc.total_processed + (chs.map (chunkProcessed dbExec)).sum
          total_errors := acc.total_errors + (chs.map (chunkErrors dbExec)).sum
          calls := acc.calls ++ (chs.map chunkCalls).flatten } := by
  intro chs
  induction chs with
  | nil => intro acc; cases acc; simp
  | cons b rest ih =>
      intro acc
      rw [List.foldl_cons, writeStep_spec, ih]
      simp [Nat.add_assoc]

theorem writeDataToDb_processed (B : Nat) (dbExec : List DbTuple → Except String Nat)
    (records : List Dict) :
    (writeDataToDb B dbExec records).1.total_processed =
      ((chunksOf B records).map (chunkProcessed dbExec)).sum := by
  unfold writeDataToDb
  rw [writeFold_spec]
  simp

theorem writeDataToDb_errors (B : Nat) (dbExec : List DbTuple → Except String Nat)
    (records : List Dict) :
    (writeDataToDb B dbExec records).1.total_errors =
      ((chunksOf B records).map (chunkErrors dbExec)).sum := by
  unfold writeDataToDb
  rw [writeFold_spec]
  simp

theorem writeDataToDb_calls (B : Nat) (dbExec : List DbTuple → Except String Nat)
    (records : List Dict) :
    (writeDataToDb B dbExec records).2 = ((chunksOf B records).map chunkCalls).flatten := by
  unfold writeDataToDb
  rw [writeFold_spec]
  simp

theorem join_chunkCalls :
    ∀ (chs : List (List Dict)),
      (chs.map chunkCalls).flatten = (chs.map prepBatch).filter (fun l => !l.isEmpty) := by
  intro chs
  induction chs with
  | nil => rfl
  | cons b rest ih =>
      by_cases he : (prepBatch b).isEmpty
      · simp only [List.map_cons, List.flatten_cons, List.filter_cons, chunkCalls, he,
          if_true, Bool.not_true, List.nil_append, ih]
        simp
      · have he2 : (prepBatch b).isEmpty = false := by simpa using he
        simp only [List.map_cons, List.flatten_cons, List.filter_cons, chunkCalls, he2,
          if_false, Bool.not_false, List.singleton_append, ih, Bool.false_eq_true]
        simp

theorem chunksOf_join {α : Type} (B : Nat) (l : List α) :
    0 < B → (chunksOf B l).flatten = l := by
  induction B, l using chunksOf.induct with
  | case1 B => intro hB; simp [chunksOf]
  | case2 x xs => intro hB; omega
  | case3 b x xs ih =>
      intro hB
      rw [chunksOf, List.flatten_cons, ih (by omega)]
      exact List.take_append_drop _ _

theorem ceilDiv_succ_step (n B : Nat) (hB : 0 < B) (hn : 0 < n) :
    (n + B - 1) / B = ((n - B) + B - 1) / B + 1 := by
  rcases le_or_lt n B with h | h
  · have h1 : n - B = 0 := by omega
    rw [h1]
    have h2 : n + B - 1 = (n - 1) + B := by omega
    rw [h2, Nat.add_div_right _ hB]
    have h3 : (n - 1) / B = 0 := Nat.div_eq_of_lt (by omega)
    have h4 : (0 + B - 1) / B = 0 := Nat.div_eq_of_lt (by omega)
    omega
  · have h2 : n + B - 1 = ((n - B) + B - 1) + B := by omega
    rw [h2, Nat.add_div_right _ hB]

theorem chunksOf_length {α : Type} (B : Nat) (l : List α) :
    0 < B → (chunksOf B l).length = (l.length + B - 1) / B := by
  induction B, l using chunksOf.induct with
  | case1 B =>
      intro hB
      have h0 : (B - 1) / B = 0 := Nat.div_eq_of_lt (by omega)
      simp [chunksOf, h0]
  | case2 x xs => intro hB; omega
  | case3 b x xs ih =>
      intro hB
      rw [chunksOf]
      simp only [List.length_cons, List.length_drop] at ih ⊢
      rw [ih (by omega)]
      rw [ceilDiv_succ_step (xs.length + 1) (b + 1) (by omega) (by omega)]

theorem chunksOf_ne_nil {α : Type} (B : Nat) (l : List α) :
    0 < B → ∀ b ∈ chunksOf B l, b ≠ [] := by
  induction B, l using chunksOf.induct with
  | case1 B =>
      intro hB c hc
      simp [chunksOf] at hc
  | case2 x xs => intro hB; omega
  | case3 b x xs ih =>
      intro hB c hc
      rw [chunksOf] at hc
      rcases List.mem_cons.mp hc with h | h
      · rw [h]
        simp
      · exact ih (by omega) c h

theorem chunksOf_mem_of_mem {α : Type} (B : Nat) (l : List α) (hB : 0 < B) :
    ∀ b ∈ chunksOf B l, ∀ x ∈ b, x ∈ l := by
  intro b hb x hx
  rw [← chunksOf_join B l hB]
  exact List.mem_flatten.mpr ⟨b, hb, hx⟩

theorem sum_filter_length_join {α : Type} (p : α → Bool) :
    ∀ (ls : List (List α)),
      ((ls.map (fun b => (b.filter p).length)).sum) = (ls.flatten.filter p).length := by
  intro ls
  induction ls with
  | nil => rfl
  | cons b rest ih => simp [List.filter_append, ih]

theorem join_map_prepBatch :
    ∀ (ls : List (List Dict)), (ls.map prepBatch).flatten = ls.flatten.filterMap prepOpt := by
  intro ls
  induction ls with
  | nil => rfl
  | cons b rest ih => simp [prepBatch, List.filterMap_append, ih]

theorem join_filter_nonempty {β : Type} :
    ∀ (ls : List (List β)), ((ls.filter (fun l => !l.isEmpty)).flatten) = ls.flatten := by
  intro ls
  induction ls with
  | nil => rfl
  | cons b rest ih =>
      by_cases he : b.isEmpty
      · have hb : b = [] := List.isEmpty_iff.mp he
        simp [hb, ih]
      · have he2 : (b.isEmpty = false) := by simpa using he
        simp [List.filter_cons, he2, ih]

theorem writeDataToDb_join (B : Nat) (hB : 0 < B) (dbExec : List DbTuple → Except String Nat)
    (records : List Dict) :
    (writeDataToDb B dbExec records).2.flatten = records.filterMap prepOpt := by
  rw [writeDataToDb_calls, join_chunkCalls, join_filter_nonempty, join_map_prepBatch,
    chunksOf_join B records hB]

theorem prepOpt_isSome (r : Dict) : (prepOpt r).isSome = exOk (prepareRecordForDb r) := by
  unfold prepOpt exOk Except.toOption
  cases prepareRecordForDb r <;> rfl

theorem length_filterMap_isSome {α β : Type} (f : α → Option β) :
    ∀ (l : List α), (l.filterMap f).length = (l.filter (fun x => (f x).isSome)).length := by
  intro l
  induction l with
  | nil => rfl
  | cons x xs ih =>
      cases hf : f x with
      | none => simp [List.filterMap_cons, hf, ih]
      | some y => simp [List.filterMap_cons, hf, ih]

theorem exOk_ok {α : Type} (e : Except String α) (h : exOk e = true) :
    ∃ a, e = Except.ok a := by
  cases e with
  | ok a => exact ⟨a, rfl⟩
  | error msg => simp [exOk] at h

theorem filter_map_length {α β : Type} (f : α → β) (p : β → Bool) :
    ∀ l : List α, ((l.map f).filter p).length = (l.filter (fun x => p (f x))).length := by
  intro l
  induction l with
  | nil => rfl
  | cons x xs ih =>
      by_cases hp : p (f x)
      · simp [List.filter_cons, hp, ih]
      · have hp2 : p (f x) = false := by simpa using hp
        simp [List.filter_cons, hp2, ih]

theorem sum_filterMap_length_flatten {α β : Type} (f : α → Option β) :
    ∀ (ls : List (List α)),
      ((ls.map (fun b => (b.filterMap f).length)).sum) = (ls.flatten.filterMap f).length := by
  intro ls
  induction ls with
  | nil => rfl
  | cons b rest ih => simp [List.filterMap_append, ih]

theorem filter_prepOpt_isSome :
    ∀ l : List Dict,
      l.filter (fun x => (prepOpt x).isSome) = l.filter (fun x => exOk (prepareRecordForDb x)) := by
  intro l
  induction l with
  | nil => rfl
  | cons x xs ih => simp [List.filter_cons, prepOpt_isSome, ih]

theorem chunkErrors_allok (dbExec : List DbTuple → Except String Nat)
    (hdb : ∀ ts, exOk (dbExec ts) = true) (b : List Dict) :
    chunkErrors dbExec b = (b.filter (fun r => !(exOk (prepareRecordForDb r)))).length := by
  unfold chunkErrors
  by_cases he : (prepBatch b).isEmpty
  · simp [he]
  · have he2 : (prepBatch b).isEmpty = false := by simpa using he
    unfold insertBatch
    rcases exOk_ok _ (hdb ((prepBatch b).map dataTuple)) with ⟨n, hd⟩
    simp [he2, hd]

theorem chunkProcessed_allok (dbExec : List DbTuple → Except String Nat)
    (hdb : ∀ ts, exOk (dbExec ts) = true) (b : List Dict) :
    chunkProcessed dbExec b = (b.filterMap prepOpt).length := by
  unfold chunkProcessed
  by_cases he : (prepBatch b).isEmpty
  · have hb : prepBatch b = [] := List.isEmpty_iff.mp he
    unfold prepBatch at hb
    rw [if_pos he, hb]
    rfl
  · rw [if_neg he]
    unfold insertBatch
    rw [if_neg he]
    rcases exOk_ok _ (hdb ((prepBatch b).map dataTuple)) with ⟨n, hd⟩
    rw [hd]
    show (List.map dataTuple (prepBatch b)).length = (b.filterMap prepOpt).length
    rw [List.length_map]
    rfl

theorem prepare_fails_on_empty_key (r : Dict)
    (hbad : pyStrip (dget r "Project ID" "") = "" ∨ pyStrip (dget r "Issue ID" "") = "") :
    exOk (prepareRecordForDb r) = false := by
  have hpv : ∀ f raw, (f = "project_id" ∨ f = "issue_id") → pyStrip raw = "" →
      prepareValue f raw = Except.error ("Required field " ++ f ++ " is empty") := by
    intro f raw hf h
    unfold prepareValue
    simp [hf, h]
  rcases hbad with h | h
  · have h1 := hpv "project_id" (dget r "Project ID" "") (Or.inl rfl) h
    simp [prepareRecordForDb, fieldMapping, mapExcept, mapStep, h1, exOk]
  · cases h0 : prepareValue "project_id" (dget r "Project ID" "") with
    | error e => simp [prepareRecordForDb, fieldMapping, mapExcept, mapStep, h0, exOk]
    | ok v =>
        have h1 := hpv "issue_id" (dget r "Issue ID" "") (Or.inr rfl) h
        simp [prepareRecordForDb, fieldMapping, mapExcept, mapStep, h0, h1, exOk]

/-- C2 counterexample: with a batch size of one and an engine that fails
every call, the first chunk fails, yet the second chunk is still passed to
_insert_batch (two attempted calls), so the failure neither propagates out
of _write_data_to_db nor stops later chunks. -/
theorem claim2_counterexample :
    (exOk (insertBatch (fun _ => Except.error "connection refused")
        (prepBatch [[("Project ID", "p1"), ("Issue ID", "i1")]])) = false) ∧
    ((writeDataToDb 1 (fun _ => Except.error "connection refused")
        [[("Project ID", "p1"), ("Issue ID", "i1")],
         [("Project ID", "p2"), ("Issue ID", "i2")]]).2.length = 2) := by
  have hch : chunksOf 1
      [[("Project ID", "p1"), ("Issue ID", "i1")],
       [("Project ID", "p2"), ("Issue ID", "i2")]] =
      [[[("Project ID", "p1"), ("Issue ID", "i1")]],
       [[("Project ID", "p2"), ("Issue ID", "i2")]]] := by
    simp [chunksOf]
  refine ⟨rfl, ?_⟩
  unfold writeDataToDb
  rw [hch]
  rfl

/-- C2 (amended): a chunk-level database failure is caught inside
_write_data_to_db rather than raised: the run continues, every chunk with
a non-empty prepared batch is passed to the engine exactly once and in
order whatever the engine answers (so no chunk is skipped and none is
retried), and a failed chunk contributes its whole record count to the
error total while contributing nothing to the processed total. -/
theorem claim2_batch_failure_caught :
    ∀ (B : Nat) (dbExec : List DbTuple → Except String Nat) (records : List Dict),
      ((writeDataToDb B dbExec records).2 =
        ((chunksOf B records).map prepBatch).filter (fun l => !l.isEmpty)) ∧
      ((writeDataToDb B dbExec records).1.total_errors =
        ((chunksOf B records).map (chunkErrors dbExec)).sum) ∧
      ((writeDataToDb B dbExec records).1.total_processed =
        ((chunksOf B records).map (chunkProcessed dbExec)).sum) := by
  intro B dbExec records
  refine ⟨?_, writeDataToDb_errors B dbExec records, writeDataToDb_processed B dbExec records⟩
  rw [writeDataToDb_calls, join_chunkCalls]

/-- C3 counterexample: an engine reporting five affected rows for a
two-record chunk; _insert_batch returns two (the number of submitted
tuples), not the reported affected-row count. -/
theorem claim3_counterexample :
    (insertBatch (fun _ => Except.ok 5)
        [[("project_id", some "p1"), ("issue_id", some "i1")],
         [("project_id", some "p2"), ("issue_id", some "i2")]] = Except.ok 2) ∧
    ¬ (insertBatch (fun _ => Except.ok 5)
        [[("project_id", some "p1"), ("issue_id", some "i1")],
         [("project_id", some "p2"), ("issue_id", some "i2")]] = Except.ok 5) := by
  have h1 : insertBatch (fun _ => Except.ok 5)
      [[("project_id", some "p1"), ("issue_id", some "i1")],
       [("project_id", some "p2"), ("issue_id", some "i2")]] = Except.ok 2 := rfl
  refine ⟨h1, fun h => ?_⟩
  rw [h1] at h
  have h2 := Except.ok.inj h
  omega

/-- C3 (amended): whenever the engine call for a non-empty chunk succeeds,
whatever affected-row count it reports, _insert_batch returns the number
of submitted tuples, which is the prepared chunk length; that value is
what _write_data_to_db adds to total_processed. -/
theorem claim3_returns_submitted_count :
    ∀ (dbExec : List DbTuple → Except String Nat) (records : List DbRecord) (rc : Nat),
      records ≠ [] → dbExec (records.map dataTuple) = Except.ok rc →
      insertBatch dbExec records = Except.ok records.length := by
  intro dbExec records rc hne hdb
  unfold insertBatch
  have he : records.isEmpty = false := by
    cases records with
    | nil => exact absurd rfl hne
    | cons x xs => rfl
  simp [he, hdb]

/-- Witness for C3: a one-record chunk with the engine reporting seven
affected rows still yields a count of one. -/
theorem claim3_witness :
    insertBatch (fun _ => Except.ok 7) [[("project_id", some "p1")]] = Except.ok 1 := by
  have h := claim3_returns_submitted_count (fun _ => Except.ok 7)
      [[("project_id", some "p1")]] 7 (by simp) rfl
  exact h

/-- C4: a record whose Project ID or Issue ID strips to empty makes
_prepare_record_for_db raise; under an engine that accepts every call the
error total counts exactly the records failing preparation, the records
actually passed to the engine are exactly the preparations of the
surviving records (so a rejected record is never sent and the rest of its
chunk is still written), and the processed total counts the surviving
records. -/
theorem claim4_required_field_rejection :
    ∀ (B : Nat) (dbExec : List DbTuple → Except String Nat) (records : List Dict) (r : Dict),
      0 < B →
      (∀ ts : List DbTuple, exOk (dbExec ts) = true) →
      r ∈ records →
      (pyStrip (dget r "Project ID" "") = "" ∨ pyStrip (dget r "Issue ID" "") = "") →
      (exOk (prepareRecordForDb r) = false) ∧
      ((writeDataToDb B dbExec records).1.total_errors =
        (records.filter (fun x => !(exOk (prepareRecordForDb x)))).length) ∧
      ((writeDataToDb B dbExec records).2.flatten = records.filterMap prepOpt) ∧
      ((writeDataToDb B dbExec records).1.total_processed =
        (records.filter (fun x => exOk (prepareRecordForDb x))).length) := by
  intro B dbExec records r hB hdb hr hbad
  refine ⟨prepare_fails_on_empty_key r hbad, ?_,
    writeDataToDb_join B hB dbExec records, ?_⟩
  · rw [writeDataToDb_errors]
    have hfn : (chunkErrors dbExec) =
        fun b => (b.filter (fun r => !(exOk (prepareRecordForDb r)))).length :=
      funext (chunkErrors_allok dbExec hdb)
    rw [hfn, sum_filter_length_join, chunksOf_join B records hB]
  · rw [writeDataToDb_processed]
    have hfn : (chunkProcessed dbExec) = fun b => (b.filterMap prepOpt).length :=
      funext (chunkProcessed_allok dbExec hdb)
    rw [hfn, sum_filterMap_length_flatten, chunksOf_join B records hB,
      length_filterMap_isSome, filter_prepOpt_isSome]

/-- Witness for C4: a record with a blank Project ID among two records is
rejected and counted while the other record is processed. -/
theorem claim4_witness :
    (exOk (prepareRecordForDb [("Project ID", "   "), ("Issue ID", "i0")]) = false) ∧
    ((writeDataToDb 2 (fun _ => Except.ok 3)
        [[("Project ID", "   "), ("Issue ID", "i0")],
         [("Project ID", "p1"), ("Issue ID", "i1")]]).1.total_errors = 1) ∧
    ((writeDataToDb 2 (fun _ => Except.ok 3)
        [[("Project ID", "   "), ("Issue ID", "i0")],
         [("Project ID", "p1"), ("Issue ID", "i1")]]).1.total_processed = 1) := by
  have h := claim4_required_field_rejection 2 (fun _ => Except.ok 3)
      [[("Project ID", "   "), ("Issue ID", "i0")],
       [("Project ID", "p1"), ("Issue ID", "i1")]]
      [("Project ID", "   "), ("Issue ID", "i0")]
      (by omega) (fun ts => rfl) (by simp) (Or.inl rfl)
  exact ⟨h.1, h.2.1.trans rfl, h.2.2.2.trans rfl⟩

/-- C5 counterexample: batch size two, two valid records among four, but
the two valid records sit in different index-based chunks, so two
persistence calls are issued instead of ceil(2/2) = 1. -/
theorem claim5_counterexample :
    ¬ ((writeDataToDb 2 (fun _ => Except.ok 0)
        [[("Project ID", ""), ("Issue ID", "x1")],
         [("Project ID", "p1"), ("Issue ID", "i1")],
         [("Project ID", "p2"), ("Issue ID", "i2")],
         [("Project ID", ""), ("Issue ID", "x2")]]).2.length =
      ((([[("Project ID", ""), ("Issue ID", "x1")],
          [("Project ID", "p1"), ("Issue ID", "i1")],
          [("Project ID", "p2"), ("Issue ID", "i2")],
          [("Project ID", ""), ("Issue ID", "x2")]].filter
            (fun x => exOk (prepareRecordForDb x))).length + 2 - 1) / 2)) := by
  have hch : chunksOf 2
      [[("Project ID", ""), ("Issue ID", "x1")],
       [("Project ID", "p1"), ("Issue ID", "i1")],
       [("Project ID", "p2"), ("Issue ID", "i2")],
       [("Project ID", ""), ("Issue ID", "x2")]] =
      [[[("Project ID", ""), ("Issue ID", "x1")],
        [("Project ID", "p1"), ("Issue ID", "i1")]],
       [[("Project ID", "p2"), ("Issue ID", "i2")],
        [("Project ID", ""), ("Issue ID", "x2")]]] := by
    simp [chunksOf]
  have h1 : (writeDataToDb 2 (fun _ => Except.ok 0)
      [[("Project ID", ""), ("Issue ID", "x1")],
       [("Project ID", "p1"), ("Issue ID", "i1")],
       [("Project ID", "p2"), ("Issue ID", "i2")],
       [("Project ID", ""), ("Issue ID", "x2")]]).2.length = 2 := by
    unfold writeDataToDb
    rw [hch]
    rfl
  have h2 : ((([[("Project ID", ""), ("Issue ID", "x1")],
      [("Project ID", "p1"), ("Issue ID", "i1")],
      [("Project ID", "p2"), ("Issue ID", "i2")],
      [("Project ID", ""), ("Issue ID", "x2")]].filter
        (fun x => exOk (prepareRecordForDb x))).length + 2 - 1) / 2) = 1 := rfl
  rw [h1, h2]
  omega

/-- C5 (amended): the writer issues one persistence call per index-based
chunk of the input containing at least one record surviving preparation;
when every record survives this is exactly ceil(N/B) calls; and the
concatenation of the batches passed to the engine equals, in order, the
preparations of the surviving records, so exactly the non-rejected
records reach the database. -/
theorem claim5_chunking :
    ∀ (B : Nat) (dbExec : List DbTuple → Except String Nat) (records : List Dict),
      0 < B →
      ((writeDataToDb B dbExec records).2.length =
        ((chunksOf B records).filter (fun b => !(prepBatch b).isEmpty)).length) ∧
      ((writeDataToDb B dbExec records).2.flatten = records.filterMap prepOpt) ∧
      ((∀ x ∈ records, exOk (prepareRecordForDb x) = true) →
        (writeDataToDb B dbExec records).2.length = (records.length + B - 1) / B) := by
  intro B dbExec records hB
  refine ⟨?_, writeDataToDb_join B hB dbExec records, ?_⟩
  · rw [writeDataToDb_calls, join_chunkCalls, filter_map_length]
  · intro hvalid
    rw [writeDataToDb_calls, join_chunkCalls, filter_map_length]
    have hall : ∀ b ∈ chunksOf B records, (!(prepBatch b).isEmpty) = true := by
      intro b hb
      have hne := chunksOf_ne_nil B records hB b hb
      cases b with
      | nil => exact absurd rfl hne
      | cons x xs =>
          have hx : x ∈ records := chunksOf_mem_of_mem B records hB _ hb x (by simp)
          have hv : (prepOpt x).isSome = true := by
            rw [prepOpt_isSome]
            exact hvalid x hx
          cases hp : prepOpt x with
          | none => rw [hp] at hv; cases hv
          | some y => simp [prepBatch, List.filterMap_cons, hp]
    rw [List.filter_eq_self.mpr hall, chunksOf_length B records hB]

/-- Witness for C5: three valid records with batch size two yield two
persistence calls. -/
theorem claim5_witness :
    (writeDataToDb 2 (fun _ => Except.ok 0)
      [[("Project ID", "p1"), ("Issue ID", "i1")],
       [("Project ID", "p2"), ("Issue ID", "i2")],
       [("Project ID", "p3"), ("Issue ID", "i3")]]).2.length = 2 := by
  have h := (claim5_chunking 2 (fun _ => Except.ok 0)
      [[("Project ID", "p1"), ("Issue ID", "i1")],
       [("Project ID", "p2"), ("Issue ID", "i2")],
       [("Project ID", "p3"), ("Issue ID", "i3")]] (by omega)).2.2 (by decide)
  exact h

/-- One DBInstance entry of the describe response, restricted to the
fields the discovery logic reads (aws_data_discovery.py lines 105-123);
fields copied into instance_info but never read by the filtering and
ranking logic are omitted. -/
structure RawDBInstance where
  dbInstanceIdentifier : String
  engine : String
  endpointAddress : String
  endpointPort : Nat
  dbInstanceStatus : String
  availabilityZone : String
  publiclyAccessible : Bool
  masterUsername : String
  allocatedStorage : Nat
deriving DecidableEq

/-- The instance_info dictionary built by discover_mysql_instances. -/
structure InstanceInfo where
  identifier : String
  engine : String
  host : String
  port : Nat
  status : String
  availabilityZone : String
  publiclyAccessible : Bool
  masterUsername : String
  allocatedStorage : Nat
deriving DecidableEq

/-- Embedding of the instance_info construction
(aws_data_discovery.py lines 108-123). -/
def toInstanceInfo (d : RawDBInstance) : InstanceInfo :=
  { identifier := d.dbInstanceIdentifier
    engine := d.engine
    host := d.endpointAddress
    port := d.endpointPort
    status := d.dbInstanceStatus
    availabilityZone := d.availabilityZone
    publiclyAccessible := d.publiclyAccessible
    masterUsername := d.masterUsername
    allocatedStorage := d.allocatedStorage }

/-- Python str.lower(), modelled on the character list. -/
def strToLower (s : String) : String :=
  String.mk (s.data.map Char.toLower)

/-- Engine family filter (aws_data_discovery.py line 107). -/
def engineFamilyOk (d : RawDBInstance) : Bool :=
  strToLower d.engine ∈ (["mysql", "aurora-mysql"] : List String)

/-- Embedding of AWSRDSDiscovery._is_instance_accessible
(aws_data_discovery.py lines 136-161): publicly accessible instances pass
outright, an unknown local instance id passes everything, otherwise the
status must lower-case to available. -/
def isInstanceAccessible (selfInstanceId : Option String) (db_instance : InstanceInfo) : Bool :=
  if db_instance.publiclyAccessible then true
  else if selfInstanceId.getD "" = "" then true
  else strToLower db_instance.status == "available"

/-- Embedding of AWSRDSDiscovery.discover_mysql_instances
(aws_data_discovery.py lines 88-134) over an explicit describe response. -/
def discoverMysqlInstances (selfInstanceId : Option String)
    (dbInstances : List RawDBInstance) : List InstanceInfo :=
  dbInstances.foldl
    (fun acc d =>
      if engineFamilyOk d then
        if isInstanceAccessible selfInstanceId (toInstanceInfo d) then
          acc ++ [toInstanceInfo d]
        else acc
      else acc) []

/-- Embedding of AWSRDSDiscovery._is_same_availability_zone
(aws_data_discovery.py lines 189-203); ec2AZ is the availability zone the
describe-instances call reports for the local EC2 instance, none when the
call is unavailable or fails. -/
def isSameAvailabilityZone (selfInstanceId ec2AZ : Option String)
    (db_instance : InstanceInfo) : Bool :=
  if selfInstanceId.getD "" = "" then false
  else
    match ec2AZ with
    | some az => db_instance.availabilityZone == az
    | none => false

/-- The sort key of get_recommended_instance (aws_data_discovery.py lines
176-180): availability score, same-zone score, allocated storage. -/
def sortKeyTriple (selfInstanceId ec2AZ : Option String) (info : InstanceInfo) :
    Nat × Nat × Nat :=
  (if info.status = "available" then 1 else 0,
   if isSameAvailabilityZone selfInstanceId ec2AZ info then 1 else 0,
   info.allocatedStorage)

/-- Strict lexicographic comparison of sort-key triples, as Python tuple
comparison. -/
def lexLt (a b : Nat × Nat × Nat) : Bool :=
  decide (a.1 < b.1 ∨ (a.1 = b.1 ∧ (a.2.1 < b.2.1 ∨ (a.2.1 = b.2.1 ∧ a.2.2 < b.2.2))))

/-- Insertion step of the descending sort: the new element goes in front
of the first strictly smaller key. -/
def insertDesc (key : α → Nat × Nat × Nat) (x : α) : List α → List α
  | [] => [x]
  | y :: ys => if lexLt (key y) (key x) then x :: y :: ys else y :: insertDesc key x ys

/-- Model of list.sort(key, reverse=True) followed by no further use of
order beyond the head: a stable descending insertion sort. -/
def sortDesc (key : α → Nat × Nat × Nat) (l : List α) : List α :=
  l.foldl (fun acc x => insertDesc key x acc) []

/-- Embedding of AWSRDSDiscovery.get_recommended_instance
(aws_data_discovery.py lines 163-187). -/
def getRecommendedInstance (selfInstanceId ec2AZ : Option String)
    (dbInstances : List RawDBInstance) : Option InstanceInfo :=
  let instances := discoverMysqlInstances selfInstanceId dbInstances
  if instances.isEmpty then none
  else (sortDesc (sortKeyTriple selfInstanceId ec2AZ) instances).head?

theorem lexLt_irrefl (a : Nat × Nat × Nat) : lexLt a a = false := by
  obtain ⟨a1, a2, a3⟩ := a
  simp [lexLt]

theorem lexLt_asymm (a b : Nat × Nat × Nat) (h : lexLt a b = true) : lexLt b a = false := by
  obtain ⟨a1, a2, a3⟩ := a
  obtain ⟨b1, b2, b3⟩ := b
  simp [lexLt] at h ⊢
  omega

theorem lexLt_trans (a b c : Nat × Nat × Nat) (h1 : lexLt a b = true) (h2 : lexLt b c = true) :
    lexLt a c = true := by
  obtain ⟨a1, a2, a3⟩ := a
  obtain ⟨b1, b2, b3⟩ := b
  obtain ⟨c1, c2, c3⟩ := c
  simp [lexLt] at h1 h2 ⊢
  omega

theorem lexLt_false_step (y x z : Nat × Nat × Nat) (h1 : lexLt y x = true)
    (h2 : lexLt y z = false) : lexLt x z = false := by
  cases h3 : lexLt x z with
  | false => rfl
  | true =>
      have h4 := lexLt_trans y x z h1 h3
      rw [h4] at h2
      cases h2

theorem insertDesc_mem (key : α → Nat × Nat × Nat) (x : α) :
    ∀ (l : List α) (z : α), z ∈ insertDesc key x l ↔ z = x ∨ z ∈ l := by
  intro l
  induction l with
  | nil => intro z; simp [insertDesc]
  | cons y ys ih =>
      intro z
      unfold insertDesc
      by_cases hc : lexLt (key y) (key x)
      · simp [hc]
      · have hc2 : lexLt (key y) (key x) = false := by simpa using hc
        simp [hc2, ih]
        tauto

theorem insertDesc_pairwise (key : α → Nat × Nat × Nat) (x : α) :
    ∀ (l : List α), List.Pairwise (fun a b => lexLt (key a) (key b) = false) l →
      List.Pairwise (fun a b => lexLt (key a) (key b) = false) (insertDesc key x l) := by
  intro l
  induction l with
  | nil => intro _; simp [insertDesc, List.pairwise_cons]
  | cons y ys ih =>
      intro h
      rw [List.pairwise_cons] at h
      unfold insertDesc
      by_cases hc : lexLt (key y) (key x)
      · rw [if_pos hc]
        rw [List.pairwise_cons]
        constructor
        · intro z hz
          rcases List.mem_cons.mp hz with hz1 | hz2
          · rw [hz1]
            exact lexLt_asymm (key y) (key x) hc
          · exact lexLt_false_step (key y) (key x) (key z) hc (h.1 z hz2)
        · rw [List.pairwise_cons]
          exact h
      · have hc2 : lexLt (key y) (key x) = false := by simpa using hc
        rw [if_neg hc]
        rw [List.pairwise_cons]
        constructor
        · intro z hz
          rcases (insertDesc_mem key x ys z).mp hz with hz1 | hz2
          · rw [hz1]
            exact hc2
          · exact h.1 z hz2
        · exact ih h.2

theorem sortDesc_fold_pairwise (key : α → Nat × Nat × Nat) :
    ∀ (l : List α) (acc : List α),
      List.Pairwise (fun a b => lexLt (key a) (key b) = false) acc →
      List.Pairwise (fun a b => lexLt (key a) (key b) = false)
        (l.foldl (fun acc x => insertDesc key x acc) acc) := by
  intro l
  induction l with
  | nil => intro acc h; exact h
  | cons x xs ih =>
      intro acc h
      exact ih (insertDesc key x acc) (insertDesc_pairwise key x acc h)

theorem sortDesc_fold_mem (key : α → Nat × Nat × Nat) :
    ∀ (l : List α) (acc : List α) (z : α),
      z ∈ l.foldl (fun acc x => insertDesc key x acc) acc ↔ z ∈ acc ∨ z ∈ l := by
  intro l
  induction l with
  | nil => intro acc z; simp
  | cons x xs ih =>
      intro acc z
      rw [List.foldl_cons, ih, insertDesc_mem]
      simp
      tauto

theorem sortDesc_pairwise (key : α → Nat × Nat × Nat) (l : List α) :
    List.Pairwise (fun a b => lexLt (key a) (key b) = false) (sortDesc key l) :=
  sortDesc_fold_pairwise key l [] List.Pairwise.nil

theorem sortDesc_mem (key : α → Nat × Nat × Nat) (l : List α) (z : α) :
    z ∈ sortDesc key l ↔ z ∈ l := by
  unfold sortDesc
  rw [sortDesc_fold_mem]
  simp

theorem discover_fold_spec (selfInstanceId : Option String) :
    ∀ (dbInstances : List RawDBInstance) (acc : List InstanceInfo),
      (dbInstances.foldl
        (fun acc d =>
          if engineFamilyOk d then
            if isInstanceAccessible selfInstanceId (toInstanceInfo d) then
              acc ++ [toInstanceInfo d]
            else acc
          else acc) acc) =
      acc ++ (((dbInstances.filter engineFamilyOk).map toInstanceInfo).filter
        (isInstanceAccessible selfInstanceId)) := by
  intro dbInstances
  induction dbInstances with
  | nil => intro acc; simp
  | cons d rest ih =>
      intro acc
      rw [List.foldl_cons]
      by_cases he : engineFamilyOk d
      · by_cases ha : isInstanceAccessible selfInstanceId (toInstanceInfo d)
        · rw [if_pos he, if_pos ha, ih, List.filter_cons, if_pos he]
          simp [List.filter_cons, ha]
        · have ha2 : isInstanceAccessible selfInstanceId (toInstanceInfo d) = false := by
            simpa using ha
          rw [if_pos he, if_neg (by simp [ha2]), ih, List.filter_cons, if_pos he]
          simp [List.filter_cons, ha2]
      · have he2 : engineFamilyOk d = false := by simpa using he
        rw [if_neg (by simp [he2]), ih, List.filter_cons]
        simp [he2]

/-- C9 counterexample: a publicly accessible MySQL instance whose status
is stopped is kept by discover_mysql_instances, although the claim says
every instance not in an available state is excluded. -/
theorem claim9_counterexample :
    discoverMysqlInstances (some "i-1")
      [{ dbInstanceIdentifier := "db1", engine := "mysql", endpointAddress := "h",
         endpointPort := 3306, dbInstanceStatus := "stopped", availabilityZone := "az1",
         publiclyAccessible := true, masterUsername := "admin", allocatedStorage := 100 }] ≠
      [] := by
  decide

/-- C9 (amended): discover_mysql_instances keeps exactly the instances of
the MySQL engine family that pass the accessibility check, which passes an
instance when it is publicly accessible, or when the local instance id is
unknown or empty, or when its status lower-cases to available (so a
non-available but publicly accessible instance is kept);
get_recommended_instance returns none exactly when no instance survives,
and otherwise returns a surviving instance whose sort-key triple
(availability rank, same-zone rank, storage) is maximal. -/
theorem claim9_discovery_ranking :
    ∀ (selfInstanceId ec2AZ : Option String) (dbInstances : List RawDBInstance),
      (discoverMysqlInstances selfInstanceId dbInstances =
        ((dbInstances.filter engineFamilyOk).map toInstanceInfo).filter
          (isInstanceAccessible selfInstanceId)) ∧
      (getRecommendedInstance selfInstanceId ec2AZ dbInstances = none ↔
        discoverMysqlInstances selfInstanceId dbInstances = []) ∧
      (∀ r, getRecommendedInstance selfInstanceId ec2AZ dbInstances = some r →
        r ∈ discoverMysqlInstances selfInstanceId dbInstances ∧
        ∀ x ∈ discoverMysqlInstances selfInstanceId dbInstances,
          lexLt (sortKeyTriple selfInstanceId ec2AZ r)
            (sortKeyTriple selfInstanceId ec2AZ x) = false) := by
  intro selfInstanceId ec2AZ dbInstances
  refine ⟨discover_fold_spec selfInstanceId dbInstances [], ?_, ?_⟩
  · unfold getRecommendedInstance
    by_cases he : (discoverMysqlInstances selfInstanceId dbInstances).isEmpty
    · have hnil := List.isEmpty_iff.mp he
      simp [he, hnil]
    · have he2 : (discoverMysqlInstances selfInstanceId dbInstances).isEmpty = false := by
        simpa using he
      have hne : discoverMysqlInstances selfInstanceId dbInstances ≠ [] := by
        intro h
        rw [h] at he2
        cases he2
      rcases List.exists_mem_of_ne_nil _ hne with ⟨z, hz⟩
      have hzs : z ∈ sortDesc (sortKeyTriple selfInstanceId ec2AZ)
          (discoverMysqlInstances selfInstanceId dbInstances) :=
        (sortDesc_mem _ _ z).mpr hz
      have hsne : sortDesc (sortKeyTriple selfInstanceId ec2AZ)
          (discoverMysqlInstances selfInstanceId dbInstances) ≠ [] := by
        intro h
        rw [h] at hzs
        cases hzs
      simp only [he2, Bool.false_eq_true, if_false]
      constructor
      · intro h
        cases hs : sortDesc (sortKeyTriple selfInstanceId ec2AZ)
            (discoverMysqlInstances selfInstanceId dbInstances) with
        | nil => exact absurd hs hsne
        | cons a t => rw [hs] at h; cases h
      · intro h
        exact absurd h hne
  · intro r hr
    unfold getRecommendedInstance at hr
    by_cases he : (discoverMysqlInstances selfInstanceId dbInstances).isEmpty
    · rw [if_pos he] at hr
      cases hr
    · have he2 : (discoverMysqlInstances selfInstanceId dbInstances).isEmpty = false := by
        simpa using he
      rw [if_neg (by simp [he2])] at hr
      cases hs : sortDesc (sortKeyTriple selfInstanceId ec2AZ)
          (discoverMysqlInstances selfInstanceId dbInstances) with
      | nil => rw [hs] at hr; cases hr
      | cons a t =>
          rw [hs] at hr
          have hra : a = r := by
            have := hr
            simp [List.head?] at this
            exact this
          have hmem : r ∈ sortDesc (sortKeyTriple selfInstanceId ec2AZ)
              (discoverMysqlInstances selfInstanceId dbInstances) := by
            rw [hs, ← hra]
            simp
          constructor
          · exact (sortDesc_mem _ _ r).mp hmem
          · intro x hx
            have hxs : x ∈ sortDesc (sortKeyTriple selfInstanceId ec2AZ)
                (discoverMysqlInstances selfInstanceId dbInstances) :=
              (sortDesc_mem _ _ x).mpr hx
            rw [hs] at hxs
            rcases List.mem_cons.mp hxs with hx1 | hx2
            · rw [hx1, ← hra]
              exact lexLt_irrefl _
            · have hp := sortDesc_pairwise (sortKeyTriple selfInstanceId ec2AZ)
                (discoverMysqlInstances selfInstanceId dbInstances)
              rw [hs, List.pairwise_cons] at hp
              rw [← hra]
              exact hp.1 x hx2

/-- Witness for C9: of two available instances, the one in the same zone
wins although the other has more storage. -/
theorem claim9_witness :
    ({ identifier := "db1", engine := "mysql", host := "h1", port := 3306,
       status := "available", availabilityZone := "az1", publiclyAccessible := false,
       masterUsername := "admin", allocatedStorage := 10 } : InstanceInfo) ∈
      discoverMysqlInstances (some "i-9")
        [{ dbInstanceIdentifier := "db1", engine := "mysql", endpointAddress := "h1",
           endpointPort := 3306, dbInstanceStatus := "available", availabilityZone := "az1",
           publiclyAccessible := false, masterUsername := "admin", allocatedStorage := 10 },
         { dbInstanceIdentifier := "db2", engine := "mysql", endpointAddress := "h2",
           endpointPort := 3306, dbInstanceStatus := "available", availabilityZone := "az2",
           publiclyAccessible := false, masterUsername := "admin", allocatedStorage := 500 }] ∧
    ∀ x ∈ discoverMysqlInstances (some "i-9")
        [{ dbInstanceIdentifier := "db1", engine := "mysql", endpointAddress := "h1",
           endpointPort := 3306, dbInstanceStatus := "available", availabilityZone := "az1",
           publiclyAccessible := false, masterUsername := "admin", allocatedStorage := 10 },
         { dbInstanceIdentifier := "db2", engine := "mysql", endpointAddress := "h2",
           endpointPort := 3306, dbInstanceStatus := "available", availabilityZone := "az2",
           publiclyAccessible := false, masterUsername := "admin", allocatedStorage := 500 }],
      lexLt
        (sortKeyTriple (some "i-9") (some "az1")
          { identifier := "db1", engine := "mysql", host := "h1", port := 3306,
            status := "available", availabilityZone := "az1", publiclyAccessible := false,
            masterUsername := "admin", allocatedStorage := 10 })
        (sortKeyTriple (some "i-9") (some "az1") x) = false :=
  (claim9_discovery_ranking (some "i-9") (some "az1")
      [{ dbInstanceIdentifier := "db1", engine := "mysql", endpointAddress := "h1",
         endpointPort := 3306, dbInstanceStatus := "available", availabilityZone := "az1",
         publiclyAccessible := false, masterUsername := "admin", allocatedStorage := 10 },
       { dbInstanceIdentifier := "db2", engine := "mysql", endpointAddress := "h2",
         endpointPort := 3306, dbInstanceStatus := "available", availabilityZone := "az2",
         publiclyAccessible := false, masterUsername := "admin", allocatedStorage := 500 }]).2.2
    _ (by decide)

end PMG
